import Mathlib

/-!
Verification of the bid-acceptance and auction-state transition logic of the
"guess the worth" auction marketplace.

The development shallowly embeds the relevant backend code:
* `models/artwork.py`, `models/bid.py`, `models/payment.py` — the data model;
* `routers/bids.py` (`create_bid`, `get_artwork_bids`) — the bid evaluation
  engine and the bid listing endpoint;
* `services/auction_service.py` (`AuctionService.check_expired_auctions`) —
  the auction expiry sweeper;
* `services/stripe_service.py` (`handle_payment_succeeded`,
  `handle_payment_failed`) — the payment state reconciler.

Database rows are Lean structures, tables are lists kept in insertion order,
monetary amounts are rationals (the code only compares and assigns floats, so
order-embedding into ℚ is faithful), timestamps are integers, and the
read-then-write transaction of each operation is explicit state passing on a
`DB` record.  An operation that raises an HTTP error before committing returns
the unchanged database together with the error.
-/

namespace GuessTheWorth

/-- `models/artwork.py` — `ArtworkStatus` enumeration. -/
inductive ArtworkStatus
  | ACTIVE
  | PENDING_PAYMENT
  | SOLD
  | ARCHIVED
deriving DecidableEq

/-- `models/payment.py` — `PaymentStatus` enumeration. -/
inductive PaymentStatus
  | PENDING
  | PROCESSING
  | SUCCEEDED
  | FAILED
  | CANCELED
deriving DecidableEq

/-- `models/artwork.py` — the `Artwork` row.  `current_highest_bid` is
non-nullable with default `0.0`; `end_date` is nullable. -/
structure Artwork where
  id : Nat
  seller_id : Nat
  secret_threshold : ℚ
  current_highest_bid : ℚ
  status : ArtworkStatus
  end_date : Option Int
  created_at : Int
deriving DecidableEq

/-- `models/bid.py` — the `Bid` row. -/
structure Bid where
  id : Nat
  artwork_id : Nat
  bidder_id : Nat
  amount : ℚ
  created_at : Int
  is_winning : Bool
deriving DecidableEq

/-- `models/payment.py` — the `Payment` row. -/
structure Payment where
  id : Nat
  bid_id : Nat
  stripe_payment_intent_id : String
  stripe_charge_id : Option String
  amount : ℚ
  status : PaymentStatus
  failure_reason : Option String
deriving DecidableEq

/-- The relational store: one list per table, in insertion order. -/
structure DB where
  artworks : List Artwork
  bids : List Bid
  payments : List Payment
deriving DecidableEq

/-- Results of fallible operations are compared concretely in the examples
below; equality of `Except` values is decidable componentwise. -/
instance {ε α : Type} [DecidableEq ε] [DecidableEq α] : DecidableEq (Except ε α) := fun x y =>
  match x, y with
  | .error e, .error f =>
      if h : e = f then .isTrue (by rw [h])
      else .isFalse (fun hh => h (by cases hh; rfl))
  | .error _, .ok _ => .isFalse (fun hh => by cases hh)
  | .ok _, .error _ => .isFalse (fun hh => by cases hh)
  | .ok a, .ok b =>
      if h : a = b then .isTrue (by rw [h])
      else .isFalse (fun hh => h (by cases hh; rfl))

/-- Updating the single row returned by a `first()` query: replace the first
element satisfying `p` (the ORM mutates that object in place). -/
def updateFirstBy (p : α → Bool) (f : α → α) : List α → List α
  | [] => []
  | a :: rest => if p a then f a :: rest else a :: updateFirstBy p f rest

/-- The typed failures raised by `create_bid` in `routers/bids.py`
(HTTP errors, identified by which check fired). -/
inductive BidError
  | InvalidAmount
  | AmountTooLarge
  | ArtworkNotFound
  | ArtworkNotActive (status : ArtworkStatus)
  | SelfBiddingForbidden
  | BidTooLow (current : ℚ)
deriving DecidableEq

/-- `routers/bids.py` — `MAX_BID_AMOUNT = 1_000_000_000`. -/
def MAX_BID_AMOUNT : ℚ := 1000000000

/-- `routers/bids.py` — `create_bid`.  The authenticated caller's id is
`bidder_id`; `new_bid_id` and `now` stand for the id and `created_at`
the store assigns to the inserted row.  The six validation checks run in
source order before any write; the ok branch inserts the bid and updates the
artwork row exactly as lines 88–110 of the source do. -/
def create_bid (db : DB) (bidder_id : Nat) (artwork_id : Nat) (amount : ℚ)
    (new_bid_id : Nat) (now : Int) : DB × Except BidError Bid :=
  if amount ≤ 0 then (db, .error .InvalidAmount)
  else if MAX_BID_AMOUNT < amount then (db, .error .AmountTooLarge)
  else
    match db.artworks.find? (fun a => decide (a.id = artwork_id)) with
    | none => (db, .error .ArtworkNotFound)
    | some artwork =>
      if artwork.status ≠ .ACTIVE then (db, .error (.ArtworkNotActive artwork.status))
      else if artwork.seller_id = bidder_id then (db, .error .SelfBiddingForbidden)
      else
        -- `artwork.current_highest_bid or 0.0`: the column is non-nullable, and
        -- a falsy (zero) float defaults to 0.0, so this is the stored value.
        let current_bid := if artwork.current_highest_bid = 0 then 0
                           else artwork.current_highest_bid
        if 0 < current_bid ∧ amount ≤ current_bid then (db, .error (.BidTooLow current_bid))
        else
          let is_winning := decide (artwork.secret_threshold ≤ amount)
          let db_bid : Bid :=
            { id := new_bid_id, artwork_id := artwork_id, bidder_id := bidder_id,
              amount := amount, created_at := now, is_winning := is_winning }
          let artwork1 := if current_bid < amount
                          then { artwork with current_highest_bid := amount } else artwork
          let artwork2 := if is_winning
                          then { artwork1 with status := .PENDING_PAYMENT } else artwork1
          ({ db with
              artworks := updateFirstBy (fun a => decide (a.id = artwork_id))
                            (fun _ => artwork2) db.artworks,
              bids := db.bids ++ [db_bid] },
           .ok db_bid)

/-- `services/auction_service.py` — the filter
`Artwork.status == "ACTIVE", Artwork.end_date < now` (a SQL comparison with a
NULL `end_date` does not match). -/
def isExpired (now : Int) (a : Artwork) : Bool :=
  decide (a.status = .ACTIVE) &&
    (match a.end_date with
     | some d => decide (d < now)
     | none => false)

/-- `services/auction_service.py` — the per-artwork winning-bid lookup
`db.query(Bid).filter(Bid.artwork_id == artwork.id, Bid.is_winning.is_(True)).first()`,
used only for its presence. -/
def hasWinningBid (bids : List Bid) (artwork_id : Nat) : Bool :=
  bids.any (fun b => decide (b.artwork_id = artwork_id) && b.is_winning)

/-- `services/auction_service.py` — the body of the sweep loop applied to one
artwork row: an expired row is marked SOLD when a winning bid exists and
ARCHIVED otherwise; any other row is left alone. -/
def sweepArtwork (bids : List Bid) (now : Int) (a : Artwork) : Artwork :=
  if isExpired now a then
    if hasWinningBid bids a.id then { a with status := .SOLD }
    else { a with status := .ARCHIVED }
  else a

/-- `services/auction_service.py` — `AuctionService.check_expired_auctions`,
with the wall clock `now` passed explicitly.  Returns the updated store and
`len(expired_artworks)`. -/
def check_expired_auctions (db : DB) (now : Int) : DB × Nat :=
  ({ db with artworks := db.artworks.map (sweepArtwork db.bids now) },
   (db.artworks.filter (isExpired now)).length)

/-- Failures of the payment webhook handlers in `services/stripe_service.py`:
`PaymentNotFound` is the 404 raised when no Payment matches the intent id;
`MissingRelated` models the crash of `payment.bid.artwork` navigation on a
store with a dangling foreign key (the transaction is never committed). -/
inductive PaymentError
  | PaymentNotFound
  | MissingRelated
deriving DecidableEq

/-- `services/stripe_service.py` — `StripeService.handle_payment_succeeded`.
The webhook payload is its intent id and the list of charge ids
(`payment_intent.charges.data`); `charge_ids.head?` is
`charges.data[0].id if payment_intent.charges.data else None`. -/
def handle_payment_succeeded (db : DB) (intent_id : String) (charge_ids : List String) :
    DB × Except PaymentError Payment :=
  match db.payments.find? (fun p => decide (p.stripe_payment_intent_id = intent_id)) with
  | none => (db, .error .PaymentNotFound)
  | some payment =>
    match db.bids.find? (fun b => decide (b.id = payment.bid_id)) with
    | none => (db, .error .MissingRelated)
    | some bid =>
      match db.artworks.find? (fun a => decide (a.id = bid.artwork_id)) with
      | none => (db, .error .MissingRelated)
      | some _ =>
        let upP : Payment → Payment := fun p =>
          { p with status := .SUCCEEDED, stripe_charge_id := charge_ids.head? }
        let upA : Artwork → Artwork := fun a => { a with status := .SOLD }
        ({ db with
            payments := updateFirstBy
              (fun p => decide (p.stripe_payment_intent_id = intent_id)) upP db.payments,
            artworks := updateFirstBy
              (fun a => decide (a.id = bid.artwork_id)) upA db.artworks },
         .ok (upP payment))

/-- `services/stripe_service.py` — `StripeService.handle_payment_failed`.
`last_payment_error` is the optional failure message of the webhook payload
(`payment_intent.last_payment_error.message`); when absent the reason recorded
is the placeholder string of the source. -/
def handle_payment_failed (db : DB) (intent_id : String) (last_payment_error : Option String) :
    DB × Except PaymentError Payment :=
  match db.payments.find? (fun p => decide (p.stripe_payment_intent_id = intent_id)) with
  | none => (db, .error .PaymentNotFound)
  | some payment =>
    match db.bids.find? (fun b => decide (b.id = payment.bid_id)) with
    | none => (db, .error .MissingRelated)
    | some bid =>
      match db.artworks.find? (fun a => decide (a.id = bid.artwork_id)) with
      | none => (db, .error .MissingRelated)
      | some _ =>
        let upP : Payment → Payment := fun p =>
          { p with status := .FAILED,
                   failure_reason := some (last_payment_error.getD "Unknown error") }
        let upA : Artwork → Artwork := fun a => { a with status := .ACTIVE }
        let upB : Bid → Bid := fun b => { b with is_winning := false }
        ({ db with
            payments := updateFirstBy
              (fun p => decide (p.stripe_payment_intent_id = intent_id)) upP db.payments,
            artworks := updateFirstBy
              (fun a => decide (a.id = bid.artwork_id)) upA db.artworks,
            bids := updateFirstBy
              (fun b => decide (b.id = payment.bid_id)) upB db.bids },
         .ok (upP payment))

/-- `schemas/bid.py` — `BidResponse`, the response schema of the bid listing
endpoint: exactly the fields `id`, `artwork_id`, `bidder_id`, `amount`
(from `BidBase`), `bid_time`, `is_winning`; no field carries the artwork's
threshold. -/
structure BidResponse where
  id : Nat
  artwork_id : Nat
  bidder_id : Nat
  amount : ℚ
  bid_time : Int
  is_winning : Bool
deriving DecidableEq

/-- The value of one attribute of an ORM `Bid` object, as read by pydantic. -/
inductive AttrValue
  | nat (n : Nat)
  | rat (q : ℚ)
  | int (i : Int)
  | bool (b : Bool)
deriving DecidableEq

/-- `getattr` on a `models/bid.py` `Bid` row: the columns that class defines —
`id`, `artwork_id`, `bidder_id`, `amount`, `created_at`, `is_winning`.  There
is no `bid_time` attribute: migration `b2d54a525fd0` renamed the column
`bid_time` to `created_at` and the model followed; any other name fails the
lookup. -/
def bidAttr (b : Bid) : String → Option AttrValue
  | "id" => some (.nat b.id)
  | "artwork_id" => some (.nat b.artwork_id)
  | "bidder_id" => some (.nat b.bidder_id)
  | "amount" => some (.rat b.amount)
  | "created_at" => some (.int b.created_at)
  | "is_winning" => some (.bool b.is_winning)
  | _ => none

/-- pydantic v2 `from_attributes` validation of one `Bid` row against
`BidResponse`: each declared field is read via `getattr` under its own field
name and must have the declared type; a missing attribute is a validation
error (`none`).  `BidResponse.bid_time` therefore looks up the attribute
`bid_time`, not `created_at`. -/
def bidToResponse? (b : Bid) : Option BidResponse :=
  match bidAttr b "id", bidAttr b "artwork_id", bidAttr b "bidder_id",
        bidAttr b "amount", bidAttr b "bid_time", bidAttr b "is_winning" with
  | some (.nat i), some (.nat aid), some (.nat bid), some (.rat am),
      some (.int t), some (.bool w) =>
    some { id := i, artwork_id := aid, bidder_id := bid, amount := am,
           bid_time := t, is_winning := w }
  | _, _, _, _, _, _ => none

/-- `routers/bids.py` — `get_artwork_bids` together with FastAPI's
`response_model=List[BidResponse]` validation: the rows with the given
`artwork_id` (in table order — the query has no `order_by`) are each
serialized through `BidResponse`; if any row fails validation the whole
response fails (HTTP 500) instead of returning a list. -/
def get_artwork_bids (db : DB) (artwork_id : Nat) : Option (List BidResponse) :=
  (db.bids.filter (fun b => decide (b.artwork_id = artwork_id))).mapM bidToResponse?

/-! ### Concrete stores used to exercise the operations -/

/-- A fresh ACTIVE listing: threshold 100, no bids yet (scenario of §8). -/
def awEx : Artwork :=
  { id := 1, seller_id := 1, secret_threshold := 100, current_highest_bid := 0,
    status := .ACTIVE, end_date := none, created_at := 0 }

def dbEx : DB := { artworks := [awEx], bids := [], payments := [] }

/-- An expired ACTIVE listing holding a winning bid. -/
def awExp : Artwork :=
  { id := 2, seller_id := 1, secret_threshold := 50, current_highest_bid := 60,
    status := .ACTIVE, end_date := some 10, created_at := 0 }

/-- An expired ACTIVE listing with no winning bid. -/
def awExp2 : Artwork :=
  { id := 3, seller_id := 1, secret_threshold := 50, current_highest_bid := 20,
    status := .ACTIVE, end_date := some 10, created_at := 0 }

def bidWin : Bid :=
  { id := 9, artwork_id := 2, bidder_id := 2, amount := 60, created_at := 1,
    is_winning := true }

def bidLose : Bid :=
  { id := 8, artwork_id := 3, bidder_id := 2, amount := 20, created_at := 2,
    is_winning := false }

def dbSweep : DB := { artworks := [awExp, awExp2], bids := [bidWin, bidLose], payments := [] }

def payEx : Payment :=
  { id := 1, bid_id := 9, stripe_payment_intent_id := "pi_1", stripe_charge_id := none,
    amount := 60, status := .PENDING, failure_reason := none }

/-- A winning bid awaiting payment. -/
def dbPay : DB :=
  { artworks := [{ awExp with status := .PENDING_PAYMENT }], bids := [bidWin],
    payments := [payEx] }

/-- A completed sale: payment SUCCEEDED, artwork SOLD, bid winning. -/
def dbSold : DB :=
  { artworks := [{ awExp with status := .SOLD }], bids := [bidWin],
    payments := [{ payEx with status := .SUCCEEDED, stripe_charge_id := some "ch_1" }] }

/-! ### Lemmas about `updateFirstBy` -/

theorem find?_updateFirstBy {α : Type} (p : α → Bool) (f : α → α) (l : List α)
    (hf : ∀ x, p x = true → p (f x) = true) :
    (updateFirstBy p f l).find? p = (l.find? p).map f := by
  induction l with
  | nil => rfl
  | cons a rest ih =>
    by_cases h : p a = true
    · rw [updateFirstBy, if_pos h, List.find?_cons_of_pos _ (hf a h),
        List.find?_cons_of_pos _ h]
      rfl
    · rw [updateFirstBy, if_neg h, List.find?_cons_of_neg _ h,
        List.find?_cons_of_neg _ h, ih]

theorem updateFirstBy_updateFirstBy {α : Type} (p : α → Bool) (f : α → α) (l : List α)
    (hp : ∀ x, p x = true → p (f x) = true)
    (hf : ∀ x, p x = true → f (f x) = f x) :
    updateFirstBy p f (updateFirstBy p f l) = updateFirstBy p f l := by
  induction l with
  | nil => rfl
  | cons a rest ih =>
    by_cases h : p a = true
    · rw [updateFirstBy, if_pos h, updateFirstBy, if_pos (hp a h), hf a h]
    · rw [updateFirstBy, if_neg h, updateFirstBy, if_neg h, ih]

/-! ### Characterization of `create_bid` -/

/-- The inserted bid row of a successful `create_bid` call. -/
def newBid (new_bid_id artwork_id bidder_id : Nat) (amount : ℚ) (now : Int)
    (is_winning : Bool) : Bid :=
  { id := new_bid_id, artwork_id := artwork_id, bidder_id := bidder_id,
    amount := amount, created_at := now, is_winning := is_winning }

/-- The artwork row after a successful `create_bid` call (the accepted amount
always exceeds the stored highest bid, so it is written unconditionally; a
winning amount additionally moves the status to PENDING_PAYMENT). -/
def postArtwork (aw : Artwork) (amount : ℚ) : Artwork :=
  if aw.secret_threshold ≤ amount then
    { aw with current_highest_bid := amount, status := .PENDING_PAYMENT }
  else
    { aw with current_highest_bid := amount }

theorem create_bid_accepts (db : DB) (bidder_id artwork_id : Nat) (amount : ℚ)
    (new_bid_id : Nat) (now : Int) (aw : Artwork)
    (hfind : db.artworks.find? (fun a => decide (a.id = artwork_id)) = some aw)
    (h0 : 0 < amount) (hmax : amount ≤ MAX_BID_AMOUNT) (hact : aw.status = .ACTIVE)
    (hself : aw.seller_id ≠ bidder_id) (hhigh : aw.current_highest_bid < amount) :
    create_bid db bidder_id artwork_id amount new_bid_id now =
      ({ db with
          artworks := updateFirstBy (fun a => decide (a.id = artwork_id))
            (fun _ => postArtwork aw amount) db.artworks,
          bids := db.bids ++ [newBid new_bid_id artwork_id bidder_id amount now
            (decide (aw.secret_threshold ≤ amount))] },
       .ok (newBid new_bid_id artwork_id bidder_id amount now
            (decide (aw.secret_threshold ≤ amount)))) := by
  have hcb : (if aw.current_highest_bid = 0 then (0:ℚ) else aw.current_highest_bid) < amount := by
    by_cases h : aw.current_highest_bid = 0
    · simpa [h] using h0
    · simpa [h] using hhigh
  have hnotlow : ¬(0 < (if aw.current_highest_bid = 0 then (0:ℚ) else aw.current_highest_bid) ∧
      amount ≤ (if aw.current_highest_bid = 0 then (0:ℚ) else aw.current_highest_bid)) := by
    rintro ⟨-, hle⟩
    exact absurd hcb (not_lt.mpr hle)
  unfold create_bid
  rw [if_neg (not_le.mpr h0), if_neg (not_lt.mpr hmax), hfind]
  simp only [hact, ne_eq, not_true_eq_false, if_false, if_neg hself, if_neg hnotlow]
  by_cases hw : aw.secret_threshold ≤ amount
  · simp [newBid, postArtwork, hw, hact, hcb]
  · simp [newBid, postArtwork, hw, hact, hcb]

theorem create_bid_invalid_amount (db : DB) (bidder_id artwork_id : Nat) (amount : ℚ)
    (new_bid_id : Nat) (now : Int) (h0 : amount ≤ 0) :
    create_bid db bidder_id artwork_id amount new_bid_id now = (db, .error .InvalidAmount) := by
  unfold create_bid
  rw [if_pos h0]

theorem create_bid_amount_too_large (db : DB) (bidder_id artwork_id : Nat) (amount : ℚ)
    (new_bid_id : Nat) (now : Int) (h0 : ¬amount ≤ 0) (hmax : MAX_BID_AMOUNT < amount) :
    create_bid db bidder_id artwork_id amount new_bid_id now = (db, .error .AmountTooLarge) := by
  unfold create_bid
  rw [if_neg h0, if_pos hmax]

theorem create_bid_artwork_not_found (db : DB) (bidder_id artwork_id : Nat) (amount : ℚ)
    (new_bid_id : Nat) (now : Int) (h0 : ¬amount ≤ 0) (hmax : ¬MAX_BID_AMOUNT < amount)
    (hfind : db.artworks.find? (fun a => decide (a.id = artwork_id)) = none) :
    create_bid db bidder_id artwork_id amount new_bid_id now = (db, .error .ArtworkNotFound) := by
  unfold create_bid
  rw [if_neg h0, if_neg hmax, hfind]

theorem create_bid_artwork_not_active (db : DB) (bidder_id artwork_id : Nat) (amount : ℚ)
    (new_bid_id : Nat) (now : Int) (aw : Artwork)
    (h0 : ¬amount ≤ 0) (hmax : ¬MAX_BID_AMOUNT < amount)
    (hfind : db.artworks.find? (fun a => decide (a.id = artwork_id)) = some aw)
    (hne : aw.status ≠ .ACTIVE) :
    create_bid db bidder_id artwork_id amount new_bid_id now =
      (db, .error (.ArtworkNotActive aw.status)) := by
  unfold create_bid
  rw [if_neg h0, if_neg hmax, hfind]
  simp [hne]

theorem create_bid_self_bidding (db : DB) (bidder_id artwork_id : Nat) (amount : ℚ)
    (new_bid_id : Nat) (now : Int) (aw : Artwork)
    (h0 : ¬amount ≤ 0) (hmax : ¬MAX_BID_AMOUNT < amount)
    (hfind : db.artworks.find? (fun a => decide (a.id = artwork_id)) = some aw)
    (hact : aw.status = .ACTIVE) (hself : aw.seller_id = bidder_id) :
    create_bid db bidder_id artwork_id amount new_bid_id now =
      (db, .error .SelfBiddingForbidden) := by
  unfold create_bid
  rw [if_neg h0, if_neg hmax, hfind]
  simp [hact, hself]

theorem create_bid_too_low (db : DB) (bidder_id artwork_id : Nat) (amount : ℚ)
    (new_bid_id : Nat) (now : Int) (aw : Artwork)
    (h0 : ¬amount ≤ 0) (hmax : ¬MAX_BID_AMOUNT < amount)
    (hfind : db.artworks.find? (fun a => decide (a.id = artwork_id)) = some aw)
    (hact : aw.status = .ACTIVE) (hself : aw.seller_id ≠ bidder_id)
    (hpos : 0 < aw.current_highest_bid) (hle : amount ≤ aw.current_highest_bid) :
    create_bid db bidder_id artwork_id amount new_bid_id now =
      (db, .error (.BidTooLow aw.current_highest_bid)) := by
  unfold create_bid
  rw [if_neg h0, if_neg hmax, hfind]
  simp [hact, hself, ne_of_gt hpos, hpos, hle]

theorem create_bid_ok_inv (db : DB) (bidder_id artwork_id : Nat) (amount : ℚ)
    (new_bid_id : Nat) (now : Int) (b : Bid)
    (h : (create_bid db bidder_id artwork_id amount new_bid_id now).2 = .ok b) :
    ∃ aw, db.artworks.find? (fun a => decide (a.id = artwork_id)) = some aw ∧
      0 < amount ∧ amount ≤ MAX_BID_AMOUNT ∧ aw.status = .ACTIVE ∧
      aw.seller_id ≠ bidder_id ∧ aw.current_highest_bid < amount ∧
      b = newBid new_bid_id artwork_id bidder_id amount now
            (decide (aw.secret_threshold ≤ amount)) ∧
      (create_bid db bidder_id artwork_id amount new_bid_id now).1 =
        { db with
            artworks := updateFirstBy (fun a => decide (a.id = artwork_id))
              (fun _ => postArtwork aw amount) db.artworks,
            bids := db.bids ++ [b] } := by
  by_cases h0 : amount ≤ 0
  · rw [create_bid_invalid_amount db bidder_id artwork_id amount new_bid_id now h0] at h
    exact absurd h (by simp)
  by_cases hmax : MAX_BID_AMOUNT < amount
  · rw [create_bid_amount_too_large db bidder_id artwork_id amount new_bid_id now h0 hmax] at h
    exact absurd h (by simp)
  cases hfind : db.artworks.find? (fun a => decide (a.id = artwork_id)) with
  | none =>
    rw [create_bid_artwork_not_found db bidder_id artwork_id amount new_bid_id now
      h0 hmax hfind] at h
    exact absurd h (by simp)
  | some aw =>
    by_cases hact : aw.status = .ACTIVE
    · by_cases hself : aw.seller_id = bidder_id
      · rw [create_bid_self_bidding db bidder_id artwork_id amount new_bid_id now aw
          h0 hmax hfind hact hself] at h
        exact absurd h (by simp)
      · by_cases hlow : 0 < aw.current_highest_bid ∧ amount ≤ aw.current_highest_bid
        · rw [create_bid_too_low db bidder_id artwork_id amount new_bid_id now aw
            h0 hmax hfind hact hself hlow.1 hlow.2] at h
          exact absurd h (by simp)
        · have hhigh : aw.current_highest_bid < amount := by
            rcases not_and_or.mp hlow with hc | hc
            · calc aw.current_highest_bid ≤ 0 := le_of_not_lt hc
                _ < amount := lt_of_not_le h0
            · exact lt_of_not_le hc
          have hrun := create_bid_accepts db bidder_id artwork_id amount new_bid_id now aw
            hfind (lt_of_not_le h0) (le_of_not_lt hmax) hact hself hhigh
          rw [hrun] at h ⊢
          have hb : b = newBid new_bid_id artwork_id bidder_id amount now
              (decide (aw.secret_threshold ≤ amount)) := by
            simpa using h.symm
          exact ⟨aw, rfl, lt_of_not_le h0, le_of_not_lt hmax, hact, hself, hhigh, hb,
            by rw [hb]⟩
    · rw [create_bid_artwork_not_active db bidder_id artwork_id amount new_bid_id now aw
        h0 hmax hfind hact] at h
      exact absurd h (by simp)

/-- Whenever any precondition fails, `create_bid` performs no write: the
returned store is the input store. -/
theorem create_bid_error_frame (db : DB) (bidder_id artwork_id : Nat) (amount : ℚ)
    (new_bid_id : Nat) (now : Int) (e : BidError)
    (h : (create_bid db bidder_id artwork_id amount new_bid_id now).2 = .error e) :
    (create_bid db bidder_id artwork_id amount new_bid_id now).1 = db := by
  by_cases h0 : amount ≤ 0
  · rw [create_bid_invalid_amount db bidder_id artwork_id amount new_bid_id now h0]
  by_cases hmax : MAX_BID_AMOUNT < amount
  · rw [create_bid_amount_too_large db bidder_id artwork_id amount new_bid_id now h0 hmax]
  cases hfind : db.artworks.find? (fun a => decide (a.id = artwork_id)) with
  | none =>
    rw [create_bid_artwork_not_found db bidder_id artwork_id amount new_bid_id now h0 hmax hfind]
  | some aw =>
    by_cases hact : aw.status = .ACTIVE
    · by_cases hself : aw.seller_id = bidder_id
      · rw [create_bid_self_bidding db bidder_id artwork_id amount new_bid_id now aw
          h0 hmax hfind hact hself]
      · by_cases hlow : 0 < aw.current_highest_bid ∧ amount ≤ aw.current_highest_bid
        · rw [create_bid_too_low db bidder_id artwork_id amount new_bid_id now aw
            h0 hmax hfind hact hself hlow.1 hlow.2]
        · have hhigh : aw.current_highest_bid < amount := by
            rcases not_and_or.mp hlow with hc | hc
            · calc aw.current_highest_bid ≤ 0 := le_of_not_lt hc
                _ < amount := lt_of_not_le h0
            · exact lt_of_not_le hc
          rw [create_bid_accepts db bidder_id artwork_id amount new_bid_id now aw
            hfind (lt_of_not_le h0) (le_of_not_lt hmax) hact hself hhigh] at h
          exact absurd h (by simp)
    · rw [create_bid_artwork_not_active db bidder_id artwork_id amount new_bid_id now aw
        h0 hmax hfind hact]

/-! ### Characterization of the payment webhook handlers -/

/-- The row updates performed by `handle_payment_succeeded`. -/
def succeedPayment (charge_ids : List String) (p : Payment) : Payment :=
  { p with status := .SUCCEEDED, stripe_charge_id := charge_ids.head? }

/-- The row updates performed by `handle_payment_failed`. -/
def failPayment (last_payment_error : Option String) (p : Payment) : Payment :=
  { p with status := .FAILED,
           failure_reason := some (last_payment_error.getD "Unknown error") }

theorem handle_payment_succeeded_run (db : DB) (intent : String) (charges : List String)
    (p0 : Payment) (b0 : Bid) (aw0 : Artwork)
    (hp : db.payments.find? (fun p => decide (p.stripe_payment_intent_id = intent)) = some p0)
    (hb : db.bids.find? (fun b => decide (b.id = p0.bid_id)) = some b0)
    (ha : db.artworks.find? (fun a => decide (a.id = b0.artwork_id)) = some aw0) :
    handle_payment_succeeded db intent charges =
      ({ db with
          payments := updateFirstBy (fun p => decide (p.stripe_payment_intent_id = intent))
            (succeedPayment charges) db.payments,
          artworks := updateFirstBy (fun a => decide (a.id = b0.artwork_id))
            (fun a => { a with status := .SOLD }) db.artworks },
       .ok (succeedPayment charges p0)) := by
  unfold handle_payment_succeeded
  simp only [hp, hb, ha]
  rfl

theorem handle_payment_failed_run (db : DB) (intent : String) (err : Option String)
    (p0 : Payment) (b0 : Bid) (aw0 : Artwork)
    (hp : db.payments.find? (fun p => decide (p.stripe_payment_intent_id = intent)) = some p0)
    (hb : db.bids.find? (fun b => decide (b.id = p0.bid_id)) = some b0)
    (ha : db.artworks.find? (fun a => decide (a.id = b0.artwork_id)) = some aw0) :
    handle_payment_failed db intent err =
      ({ db with
          payments := updateFirstBy (fun p => decide (p.stripe_payment_intent_id = intent))
            (failPayment err) db.payments,
          artworks := updateFirstBy (fun a => decide (a.id = b0.artwork_id))
            (fun a => { a with status := .ACTIVE }) db.artworks,
          bids := updateFirstBy (fun b => decide (b.id = p0.bid_id))
            (fun b => { b with is_winning := false }) db.bids },
       .ok (failPayment err p0)) := by
  unfold handle_payment_failed
  simp only [hp, hb, ha]
  rfl

/-! ### Claims about the bid evaluation engine -/

/-- C1: for every bid that passes all preconditions, the persisted bid's
`is_winning` flag equals `amount ≥ secret_threshold` (a tie wins); when the
bid wins, the artwork — necessarily ACTIVE before — is PENDING_PAYMENT after
the same operation, and when `amount < secret_threshold` its status is
unchanged. -/
theorem create_bid_is_winning_threshold (db : DB) (bidder_id artwork_id : Nat)
    (amount : ℚ) (new_bid_id : Nat) (now : Int) (b : Bid) (aw : Artwork)
    (hfind : db.artworks.find? (fun a => decide (a.id = artwork_id)) = some aw)
    (hok : (create_bid db bidder_id artwork_id amount new_bid_id now).2 = .ok b) :
    (b.is_winning = true ↔ aw.secret_threshold ≤ amount) ∧
    aw.status = .ACTIVE ∧
    (∃ aw', (create_bid db bidder_id artwork_id amount new_bid_id now).1.artworks.find?
        (fun a => decide (a.id = artwork_id)) = some aw' ∧
      (aw.secret_threshold ≤ amount → aw'.status = .PENDING_PAYMENT) ∧
      (amount < aw.secret_threshold → aw'.status = aw.status)) := by
  obtain ⟨aw2, hfind2, h0, hmax, hact, hself, hhigh, hb, hdb⟩ :=
    create_bid_ok_inv db bidder_id artwork_id amount new_bid_id now b hok
  rw [hfind] at hfind2
  injection hfind2 with heq
  subst heq
  have hawid : aw.id = artwork_id := by simpa using List.find?_some hfind
  have hpres : ∀ x, (fun a : Artwork => decide (a.id = artwork_id)) x = true →
      (fun a : Artwork => decide (a.id = artwork_id)) ((fun _ => postArtwork aw amount) x) = true := by
    intro x _
    unfold postArtwork
    split <;> simpa using hawid
  have hfindPost : (create_bid db bidder_id artwork_id amount new_bid_id now).1.artworks.find?
      (fun a => decide (a.id = artwork_id)) = some (postArtwork aw amount) := by
    rw [hdb]
    show (updateFirstBy _ _ db.artworks).find? _ = _
    rw [find?_updateFirstBy _ _ _ hpres, hfind]
    rfl
  refine ⟨by simp [hb, newBid], hact, postArtwork aw amount, hfindPost, ?_, ?_⟩
  · intro hw
    unfold postArtwork
    rw [if_pos hw]
  · intro hw
    unfold postArtwork
    rw [if_neg (not_le.mpr hw)]

theorem create_bid_is_winning_threshold_witness :
    dbEx.artworks.find? (fun a => decide (a.id = 1)) = some awEx ∧
    (create_bid dbEx 2 1 100 1 5).2 = .ok (newBid 1 1 2 100 5 true) ∧
    (((newBid 1 1 2 100 5 true).is_winning = true ↔ awEx.secret_threshold ≤ 100) ∧
      awEx.status = .ACTIVE ∧
      (∃ aw', (create_bid dbEx 2 1 100 1 5).1.artworks.find?
          (fun a => decide (a.id = 1)) = some aw' ∧
        (awEx.secret_threshold ≤ 100 → aw'.status = .PENDING_PAYMENT) ∧
        ((100:ℚ) < awEx.secret_threshold → aw'.status = awEx.status))) :=
  ⟨by decide, by decide,
   create_bid_is_winning_threshold dbEx 2 1 100 1 5 (newBid 1 1 2 100 5 true) awEx
     (by decide) (by decide)⟩

/-- C2: for every accepted bid, the artwork's `current_highest_bid` after the
operation equals `max` of its previous value and the bid amount, and hence
never decreases. -/
theorem create_bid_highest_bid_max (db : DB) (bidder_id artwork_id : Nat)
    (amount : ℚ) (new_bid_id : Nat) (now : Int) (b : Bid) (aw : Artwork)
    (hfind : db.artworks.find? (fun a => decide (a.id = artwork_id)) = some aw)
    (hok : (create_bid db bidder_id artwork_id amount new_bid_id now).2 = .ok b) :
    ∃ aw', (create_bid db bidder_id artwork_id amount new_bid_id now).1.artworks.find?
        (fun a => decide (a.id = artwork_id)) = some aw' ∧
      aw'.current_highest_bid = max aw.current_highest_bid amount ∧
      aw.current_highest_bid ≤ aw'.current_highest_bid := by
  obtain ⟨aw2, hfind2, h0, hmax, hact, hself, hhigh, hb, hdb⟩ :=
    create_bid_ok_inv db bidder_id artwork_id amount new_bid_id now b hok
  rw [hfind] at hfind2
  injection hfind2 with heq
  subst heq
  have hawid : aw.id = artwork_id := by simpa using List.find?_some hfind
  have hpres : ∀ x, (fun a : Artwork => decide (a.id = artwork_id)) x = true →
      (fun a : Artwork => decide (a.id = artwork_id)) ((fun _ => postArtwork aw amount) x) = true := by
    intro x _
    unfold postArtwork
    split <;> simpa using hawid
  have hfindPost : (create_bid db bidder_id artwork_id amount new_bid_id now).1.artworks.find?
      (fun a => decide (a.id = artwork_id)) = some (postArtwork aw amount) := by
    rw [hdb]
    show (updateFirstBy _ _ db.artworks).find? _ = _
    rw [find?_updateFirstBy _ _ _ hpres, hfind]
    rfl
  have hchb : (postArtwork aw amount).current_highest_bid = amount := by
    unfold postArtwork
    split <;> rfl
  refine ⟨postArtwork aw amount, hfindPost, ?_, ?_⟩
  · rw [hchb, max_eq_right hhigh.le]
  · rw [hchb]
    exact hhigh.le

theorem create_bid_highest_bid_max_witness :
    dbEx.artworks.find? (fun a => decide (a.id = 1)) = some awEx ∧
    (create_bid dbEx 2 1 75 1 5).2 = .ok (newBid 1 1 2 75 5 false) ∧
    (∃ aw', (create_bid dbEx 2 1 75 1 5).1.artworks.find?
        (fun a => decide (a.id = 1)) = some aw' ∧
      aw'.current_highest_bid = max awEx.current_highest_bid 75 ∧
      awEx.current_highest_bid ≤ aw'.current_highest_bid) :=
  ⟨by decide, by decide,
   create_bid_highest_bid_max dbEx 2 1 75 1 5 (newBid 1 1 2 75 5 false) awEx
     (by decide) (by decide)⟩

/-- C3: the six preconditions of a bid submission are checked in the stated
order, each producing its specific failure; a self-bid is rejected for every
amount in range (in particular at or above the threshold); the highest-bid
check applies only when `current_highest_bid > 0`, and the first bid on a
zero-bid artwork is exempt from it. -/
theorem create_bid_precondition_order (db : DB) (bidder_id artwork_id : Nat)
    (amount : ℚ) (new_bid_id : Nat) (now : Int) :
    (amount ≤ 0 →
      create_bid db bidder_id artwork_id amount new_bid_id now
        = (db, .error .InvalidAmount)) ∧
    (0 < amount → MAX_BID_AMOUNT < amount →
      create_bid db bidder_id artwork_id amount new_bid_id now
        = (db, .error .AmountTooLarge)) ∧
    (0 < amount → amount ≤ MAX_BID_AMOUNT →
      db.artworks.find? (fun a => decide (a.id = artwork_id)) = none →
      create_bid db bidder_id artwork_id amount new_bid_id now
        = (db, .error .ArtworkNotFound)) ∧
    (∀ aw, 0 < amount → amount ≤ MAX_BID_AMOUNT →
      db.artworks.find? (fun a => decide (a.id = artwork_id)) = some aw →
      aw.status ≠ .ACTIVE →
      create_bid db bidder_id artwork_id amount new_bid_id now
        = (db, .error (.ArtworkNotActive aw.status))) ∧
    (∀ aw, 0 < amount → amount ≤ MAX_BID_AMOUNT →
      db.artworks.find? (fun a => decide (a.id = artwork_id)) = some aw →
      aw.status = .ACTIVE → aw.seller_id = bidder_id →
      create_bid db bidder_id artwork_id amount new_bid_id now
        = (db, .error .SelfBiddingForbidden)) ∧
    (∀ aw, 0 < amount → amount ≤ MAX_BID_AMOUNT →
      db.artworks.find? (fun a => decide (a.id = artwork_id)) = some aw →
      aw.status = .ACTIVE → aw.seller_id ≠ bidder_id →
      0 < aw.current_highest_bid → amount ≤ aw.current_highest_bid →
      create_bid db bidder_id artwork_id amount new_bid_id now
        = (db, .error (.BidTooLow aw.current_highest_bid))) ∧
    (∀ aw, 0 < amount → amount ≤ MAX_BID_AMOUNT →
      db.artworks.find? (fun a => decide (a.id = artwork_id)) = some aw →
      aw.status = .ACTIVE → aw.seller_id ≠ bidder_id →
      aw.current_highest_bid ≤ 0 →
      (create_bid db bidder_id artwork_id amount new_bid_id now).2
        = .ok (newBid new_bid_id artwork_id bidder_id amount now
            (decide (aw.secret_threshold ≤ amount)))) := by
  refine ⟨?_, ?_, ?_, ?_, ?_, ?_, ?_⟩
  · exact fun h0 => create_bid_invalid_amount db bidder_id artwork_id amount new_bid_id now h0
  · exact fun h0 hmax => create_bid_amount_too_large db bidder_id artwork_id amount
      new_bid_id now (not_le.mpr h0) hmax
  · exact fun h0 hmax hfind => create_bid_artwork_not_found db bidder_id artwork_id amount
      new_bid_id now (not_le.mpr h0) (not_lt.mpr hmax) hfind
  · exact fun aw h0 hmax hfind hne => create_bid_artwork_not_active db bidder_id artwork_id
      amount new_bid_id now aw (not_le.mpr h0) (not_lt.mpr hmax) hfind hne
  · exact fun aw h0 hmax hfind hact hself => create_bid_self_bidding db bidder_id artwork_id
      amount new_bid_id now aw (not_le.mpr h0) (not_lt.mpr hmax) hfind hact hself
  · exact fun aw h0 hmax hfind hact hself hpos hle => create_bid_too_low db bidder_id
      artwork_id amount new_bid_id now aw (not_le.mpr h0) (not_lt.mpr hmax) hfind hact
      hself hpos hle
  · intro aw h0 hmax hfind hact hself hz
    rw [create_bid_accepts db bidder_id artwork_id amount new_bid_id now aw hfind h0 hmax
      hact hself (lt_of_le_of_lt hz h0)]

theorem create_bid_precondition_order_witness :
    awEx.status = .ACTIVE ∧ awEx.seller_id = 1 ∧ (awEx.secret_threshold ≤ 500) ∧
    create_bid dbEx 1 1 500 1 5 = (dbEx, .error .SelfBiddingForbidden) :=
  ⟨by decide, by decide, by decide,
   (create_bid_precondition_order dbEx 1 1 500 1 5).2.2.2.2.1 awEx
     (by decide) (by decide) (by decide) (by decide) (by decide)⟩

/-- C4: whenever a bid submission fails any precondition no write occurs —
the store (bids and artworks included) is exactly the input store; in
particular a bid on a PENDING_PAYMENT artwork is rejected with
ArtworkNotActive and changes no state. -/
theorem create_bid_failure_no_write (db : DB) (bidder_id artwork_id : Nat)
    (amount : ℚ) (new_bid_id : Nat) (now : Int) :
    (∀ e, (create_bid db bidder_id artwork_id amount new_bid_id now).2 = .error e →
      (create_bid db bidder_id artwork_id amount new_bid_id now).1 = db) ∧
    (∀ aw, 0 < amount → amount ≤ MAX_BID_AMOUNT →
      db.artworks.find? (fun a => decide (a.id = artwork_id)) = some aw →
      aw.status = .PENDING_PAYMENT →
      create_bid db bidder_id artwork_id amount new_bid_id now
        = (db, .error (.ArtworkNotActive .PENDING_PAYMENT))) := by
  constructor
  · exact fun e he => create_bid_error_frame db bidder_id artwork_id amount new_bid_id now e he
  · intro aw h0 hmax hfind hpp
    have := create_bid_artwork_not_active db bidder_id artwork_id amount new_bid_id now aw
      (not_le.mpr h0) (not_lt.mpr hmax) hfind (by rw [hpp]; exact fun hc => by cases hc)
    rw [hpp] at this
    exact this

theorem create_bid_failure_no_write_witness :
    (create_bid dbPay 3 2 150 2 7).2 = .error (.ArtworkNotActive .PENDING_PAYMENT) ∧
    (create_bid dbPay 3 2 150 2 7).1 = dbPay ∧
    create_bid dbPay 3 2 150 2 7 = (dbPay, .error (.ArtworkNotActive .PENDING_PAYMENT)) := by
  have h := create_bid_failure_no_write dbPay 3 2 150 2 7
  have h2 := h.2 { awExp with status := .PENDING_PAYMENT } (by decide) (by decide)
    (by decide) (by decide)
  exact ⟨by rw [h2], h.1 (.ArtworkNotActive .PENDING_PAYMENT) (by rw [h2]), h2⟩

/-! ### Claims about the auction expiry sweeper -/

theorem isExpired_active {now : Int} {a : Artwork} (h : isExpired now a = true) :
    a.status = .ACTIVE := by
  unfold isExpired at h
  simp only [Bool.and_eq_true, decide_eq_true_eq] at h
  exact h.1

theorem sweepArtwork_ne_iff (bids : List Bid) (now : Int) (a : Artwork) :
    decide (sweepArtwork bids now a ≠ a) = isExpired now a := by
  by_cases hExp : isExpired now a = true
  · have hact : a.status = .ACTIVE := isExpired_active hExp
    rw [hExp, decide_eq_true_eq]
    unfold sweepArtwork
    rw [if_pos hExp]
    by_cases hwin : hasWinningBid bids a.id = true
    · rw [if_pos hwin]
      intro heq
      have hst := congrArg Artwork.status heq
      rw [hact] at hst
      cases hst
    · rw [if_neg hwin]
      intro heq
      have hst := congrArg Artwork.status heq
      rw [hact] at hst
      cases hst
  · have hExp' : isExpired now a = false := Bool.eq_false_iff.mpr hExp
    rw [hExp', decide_eq_false_iff_not]
    unfold sweepArtwork
    rw [if_neg hExp]
    exact fun hc => hc rfl

theorem sweepArtwork_fields (bids : List Bid) (now : Int) (a : Artwork) :
    (sweepArtwork bids now a).id = a.id ∧
    (sweepArtwork bids now a).seller_id = a.seller_id ∧
    (sweepArtwork bids now a).secret_threshold = a.secret_threshold ∧
    (sweepArtwork bids now a).current_highest_bid = a.current_highest_bid ∧
    (sweepArtwork bids now a).end_date = a.end_date ∧
    (sweepArtwork bids now a).created_at = a.created_at := by
  unfold sweepArtwork
  split
  · split <;> exact ⟨rfl, rfl, rfl, rfl, rfl, rfl⟩
  · exact ⟨rfl, rfl, rfl, rfl, rfl, rfl⟩

/-- C5: after the sweep at time `now`, every artwork that was ACTIVE with a
non-null `end_date` earlier than `now` is SOLD when one of its bids is
winning and ARCHIVED otherwise; no artwork with a past `end_date` remains
ACTIVE; and the returned count is the number of artworks whose row the sweep
changed. -/
theorem check_expired_auctions_spec (db : DB) (now : Int) :
    (check_expired_auctions db now).1.artworks
      = db.artworks.map (sweepArtwork db.bids now) ∧
    (∀ a ∈ db.artworks, a.status = .ACTIVE → ∀ d, a.end_date = some d → d < now →
      ((∃ w ∈ db.bids, w.artwork_id = a.id ∧ w.is_winning = true) →
        (sweepArtwork db.bids now a).status = .SOLD) ∧
      ((¬∃ w ∈ db.bids, w.artwork_id = a.id ∧ w.is_winning = true) →
        (sweepArtwork db.bids now a).status = .ARCHIVED)) ∧
    (∀ a' ∈ (check_expired_auctions db now).1.artworks,
      ∀ d, a'.end_date = some d → d < now → a'.status ≠ .ACTIVE) ∧
    (check_expired_auctions db now).2 =
      (db.artworks.filter (fun a => decide (sweepArtwork db.bids now a ≠ a))).length := by
  have hwin_iff : ∀ aid, hasWinningBid db.bids aid = true ↔
      ∃ w ∈ db.bids, w.artwork_id = aid ∧ w.is_winning = true := by
    intro aid
    unfold hasWinningBid
    rw [List.any_eq_true]
    simp only [Bool.and_eq_true, decide_eq_true_eq]
  refine ⟨rfl, ?_, ?_, ?_⟩
  · intro a _ hact d hed hd
    have hExp : isExpired now a = true := by
      unfold isExpired
      rw [hed]
      simp [hact, hd]
    constructor
    · intro hex
      unfold sweepArtwork
      rw [if_pos hExp, if_pos ((hwin_iff a.id).mpr hex)]
    · intro hnex
      have hwin : hasWinningBid db.bids a.id = false :=
        Bool.eq_false_iff.mpr (fun hc => hnex ((hwin_iff a.id).mp hc))
      unfold sweepArtwork
      rw [if_pos hExp, if_neg (by rw [hwin]; exact fun hc => by cases hc)]
  · intro a' ha' d hed hd
    obtain ⟨a, _, rfl⟩ := List.mem_map.mp ha'
    by_cases hExp : isExpired now a = true
    · unfold sweepArtwork
      rw [if_pos hExp]
      by_cases hwin : hasWinningBid db.bids a.id = true
      · rw [if_pos hwin]; exact fun hc => by cases hc
      · rw [if_neg hwin]; exact fun hc => by cases hc
    · have heq : sweepArtwork db.bids now a = a := by
        unfold sweepArtwork
        rw [if_neg hExp]
      rw [heq] at hed ⊢
      intro hact
      apply hExp
      unfold isExpired
      rw [hed]
      simp [hact, hd]
  · show (db.artworks.filter (isExpired now)).length = _
    rw [List.filter_congr (fun a _ => (sweepArtwork_ne_iff db.bids now a).symm)]

theorem check_expired_auctions_spec_witness :
    awExp ∈ dbSweep.artworks ∧ awExp.status = .ACTIVE ∧ awExp.end_date = some 10 ∧
    (10:ℤ) < 20 ∧ (∃ w ∈ dbSweep.bids, w.artwork_id = awExp.id ∧ w.is_winning = true) ∧
    (sweepArtwork dbSweep.bids 20 awExp).status = .SOLD ∧
    (¬∃ w ∈ dbSweep.bids, w.artwork_id = awExp2.id ∧ w.is_winning = true) ∧
    (sweepArtwork dbSweep.bids 20 awExp2).status = .ARCHIVED ∧
    (check_expired_auctions dbSweep 20).2 = 2 := by
  have h := check_expired_auctions_spec dbSweep 20
  refine ⟨by decide, by decide, by decide, by decide, by decide, ?_, by decide, ?_, ?_⟩
  · exact (h.2.1 awExp (by decide) (by decide) 10 (by decide) (by decide)).1 (by decide)
  · exact (h.2.1 awExp2 (by decide) (by decide) 10 (by decide) (by decide)).2 (by decide)
  · rw [h.2.2.2]; decide

/-- C10: the sweep mutates only the status of expired ACTIVE artworks; rows in
any other status are returned unchanged, every other field of every artwork is
preserved, and the bid and payment tables are untouched. -/
theorem check_expired_auctions_frame (db : DB) (now : Int) :
    (check_expired_auctions db now).1.artworks
      = db.artworks.map (sweepArtwork db.bids now) ∧
    (∀ a, a.status ≠ .ACTIVE → sweepArtwork db.bids now a = a) ∧
    (∀ a, (sweepArtwork db.bids now a).id = a.id ∧
      (sweepArtwork db.bids now a).seller_id = a.seller_id ∧
      (sweepArtwork db.bids now a).secret_threshold = a.secret_threshold ∧
      (sweepArtwork db.bids now a).current_highest_bid = a.current_highest_bid ∧
      (sweepArtwork db.bids now a).end_date = a.end_date ∧
      (sweepArtwork db.bids now a).created_at = a.created_at) ∧
    (check_expired_auctions db now).1.bids = db.bids ∧
    (check_expired_auctions db now).1.payments = db.payments := by
  refine ⟨rfl, ?_, fun a => sweepArtwork_fields db.bids now a, rfl, rfl⟩
  intro a hne
  have hExp : isExpired now a = false := by
    unfold isExpired
    simp [hne]
  unfold sweepArtwork
  rw [if_neg (by rw [hExp]; exact fun hc => by cases hc)]

theorem check_expired_auctions_frame_witness :
    (({ awExp with status := .SOLD } : Artwork).status ≠ .ACTIVE) ∧
    sweepArtwork dbSold.bids 20 { awExp with status := .SOLD }
      = { awExp with status := .SOLD } ∧
    (check_expired_auctions dbSold 20).1.bids = dbSold.bids :=
  ⟨by decide,
   (check_expired_auctions_frame dbSold 20).2.1 { awExp with status := .SOLD } (by decide),
   (check_expired_auctions_frame dbSold 20).2.2.2.1⟩

/-! ### Claims about the payment state reconciler -/

theorem handle_payment_succeeded_ok_inv (db : DB) (intent : String) (charges : List String)
    (p1 : Payment)
    (h : (handle_payment_succeeded db intent charges).2 = .ok p1) :
    ∃ p0 b0 aw0,
      db.payments.find? (fun p => decide (p.stripe_payment_intent_id = intent)) = some p0 ∧
      db.bids.find? (fun b => decide (b.id = p0.bid_id)) = some b0 ∧
      db.artworks.find? (fun a => decide (a.id = b0.artwork_id)) = some aw0 ∧
      p1 = succeedPayment charges p0 := by
  unfold handle_payment_succeeded at h
  cases hp : db.payments.find? (fun p => decide (p.stripe_payment_intent_id = intent)) with
  | none => simp [hp] at h
  | some p0 =>
    simp only [hp] at h
    cases hb : db.bids.find? (fun b => decide (b.id = p0.bid_id)) with
    | none => simp [hb] at h
    | some b0 =>
      simp only [hb] at h
      cases ha : db.artworks.find? (fun a => decide (a.id = b0.artwork_id)) with
      | none => simp [ha] at h
      | some aw0 =>
        simp only [ha] at h
        refine ⟨p0, b0, aw0, rfl, hb, ha, ?_⟩
        simpa [succeedPayment] using h.symm

/-- C6: replaying the success callback is idempotent — given a first call that
found the Payment, a second call with the same external reference neither
errors nor changes anything: it returns the same store and the same Payment;
the end state has the Payment SUCCEEDED and the associated Artwork SOLD. -/
theorem handle_payment_succeeded_idempotent (db : DB) (intent : String)
    (charges : List String) (p1 : Payment)
    (h : (handle_payment_succeeded db intent charges).2 = .ok p1) :
    handle_payment_succeeded (handle_payment_succeeded db intent charges).1 intent charges
      = ((handle_payment_succeeded db intent charges).1, .ok p1) ∧
    p1.status = .SUCCEEDED ∧
    (∃ b, (handle_payment_succeeded db intent charges).1.bids.find?
        (fun x => decide (x.id = p1.bid_id)) = some b ∧
      ∃ aw, (handle_payment_succeeded db intent charges).1.artworks.find?
          (fun a => decide (a.id = b.artwork_id)) = some aw ∧
        aw.status = .SOLD) := by
  obtain ⟨p0, b0, aw0, hp, hb, ha, hp1⟩ :=
    handle_payment_succeeded_ok_inv db intent charges p1 h
  have hrun := handle_payment_succeeded_run db intent charges p0 b0 aw0 hp hb ha
  have hpPres : ∀ x, (fun p : Payment => decide (p.stripe_payment_intent_id = intent)) x
      = true → (fun p : Payment => decide (p.stripe_payment_intent_id = intent))
        (succeedPayment charges x) = true := by
    intro x hx
    simpa [succeedPayment] using hx
  have hpIdem : ∀ x : Payment, (fun p : Payment =>
      decide (p.stripe_payment_intent_id = intent)) x = true →
      succeedPayment charges (succeedPayment charges x) = succeedPayment charges x := by
    intro x _
    rfl
  have haPres : ∀ x, (fun a : Artwork => decide (a.id = b0.artwork_id)) x = true →
      (fun a : Artwork => decide (a.id = b0.artwork_id))
        ((fun a : Artwork => { a with status := .SOLD }) x) = true := by
    intro x hx
    simpa using hx
  have haIdem : ∀ x : Artwork, (fun a : Artwork => decide (a.id = b0.artwork_id)) x = true →
      (fun a : Artwork => { a with status := ArtworkStatus.SOLD })
        ((fun a : Artwork => { a with status := ArtworkStatus.SOLD }) x)
      = (fun a : Artwork => { a with status := ArtworkStatus.SOLD }) x := by
    intro x _
    rfl
  have hdb1P : (handle_payment_succeeded db intent charges).1.payments
      = updateFirstBy (fun p => decide (p.stripe_payment_intent_id = intent))
          (succeedPayment charges) db.payments := by
    rw [hrun]
  have hdb1A : (handle_payment_succeeded db intent charges).1.artworks
      = updateFirstBy (fun a => decide (a.id = b0.artwork_id))
          (fun a => { a with status := .SOLD }) db.artworks := by
    rw [hrun]
  have hdb1B : (handle_payment_succeeded db intent charges).1.bids = db.bids := by
    rw [hrun]
  have h1 : (handle_payment_succeeded db intent charges).1.payments.find?
      (fun p => decide (p.stripe_payment_intent_id = intent))
      = some (succeedPayment charges p0) := by
    rw [hdb1P, find?_updateFirstBy _ _ _ hpPres, hp]
    rfl
  have h2 : (handle_payment_succeeded db intent charges).1.bids.find?
      (fun b => decide (b.id = (succeedPayment charges p0).bid_id)) = some b0 := by
    rw [hdb1B]
    exact hb
  have h3 : (handle_payment_succeeded db intent charges).1.artworks.find?
      (fun a => decide (a.id = b0.artwork_id))
      = some { aw0 with status := ArtworkStatus.SOLD } := by
    rw [hdb1A, find?_updateFirstBy _ _ _ haPres, ha]
    rfl
  have hrun2 := handle_payment_succeeded_run
    (handle_payment_succeeded db intent charges).1 intent charges
    (succeedPayment charges p0) b0 { aw0 with status := ArtworkStatus.SOLD } h1 h2 h3
  refine ⟨?_, by rw [hp1]; rfl, ?_⟩
  · rw [hrun2, hp1]
    have hPP : updateFirstBy (fun p => decide (p.stripe_payment_intent_id = intent))
        (succeedPayment charges) (handle_payment_succeeded db intent charges).1.payments
        = (handle_payment_succeeded db intent charges).1.payments := by
      rw [hdb1P]
      exact updateFirstBy_updateFirstBy _ _ _ hpPres hpIdem
    have hAA : updateFirstBy (fun a => decide (a.id = b0.artwork_id))
        (fun a => { a with status := ArtworkStatus.SOLD })
        (handle_payment_succeeded db intent charges).1.artworks
        = (handle_payment_succeeded db intent charges).1.artworks := by
      rw [hdb1A]
      exact updateFirstBy_updateFirstBy _ _ _ haPres haIdem
    rw [hPP, hAA]
    rfl
  · refine ⟨b0, ?_, { aw0 with status := ArtworkStatus.SOLD }, h3, rfl⟩
    rw [hdb1B, hp1]
    exact hb

theorem handle_payment_succeeded_idempotent_witness :
    (handle_payment_succeeded dbPay "pi_1" ["ch_1"]).2
      = .ok (succeedPayment ["ch_1"] payEx) ∧
    handle_payment_succeeded (handle_payment_succeeded dbPay "pi_1" ["ch_1"]).1 "pi_1" ["ch_1"]
      = ((handle_payment_succeeded dbPay "pi_1" ["ch_1"]).1,
         .ok (succeedPayment ["ch_1"] payEx)) ∧
    (succeedPayment ["ch_1"] payEx).status = .SUCCEEDED :=
  ⟨by decide,
   (handle_payment_succeeded_idempotent dbPay "pi_1" ["ch_1"]
     (succeedPayment ["ch_1"] payEx) (by decide)).1,
   (handle_payment_succeeded_idempotent dbPay "pi_1" ["ch_1"]
     (succeedPayment ["ch_1"] payEx) (by decide)).2.1⟩

/-- C7: for every Payment found by external reference, the failure callback
sets the Payment to FAILED with the extracted failure reason (or the generic
placeholder), returns the associated Artwork to ACTIVE with its
`current_highest_bid` untouched, and clears the associated Bid's `is_winning`
flag. -/
theorem handle_payment_failed_effects (db : DB) (intent : String) (err : Option String)
    (p0 : Payment) (b0 : Bid) (aw0 : Artwork)
    (hp : db.payments.find? (fun p => decide (p.stripe_payment_intent_id = intent)) = some p0)
    (hb : db.bids.find? (fun b => decide (b.id = p0.bid_id)) = some b0)
    (ha : db.artworks.find? (fun a => decide (a.id = b0.artwork_id)) = some aw0) :
    ∃ p1, (handle_payment_failed db intent err).2 = .ok p1 ∧
      p1.status = .FAILED ∧
      p1.failure_reason = some (err.getD "Unknown error") ∧
      (∃ aw', (handle_payment_failed db intent err).1.artworks.find?
          (fun a => decide (a.id = b0.artwork_id)) = some aw' ∧
        aw'.status = .ACTIVE ∧
        aw'.current_highest_bid = aw0.current_highest_bid) ∧
      (∃ b', (handle_payment_failed db intent err).1.bids.find?
          (fun x => decide (x.id = p0.bid_id)) = some b' ∧
        b'.is_winning = false) := by
  have hrun := handle_payment_failed_run db intent err p0 b0 aw0 hp hb ha
  have haPres : ∀ x, (fun a : Artwork => decide (a.id = b0.artwork_id)) x = true →
      (fun a : Artwork => decide (a.id = b0.artwork_id))
        ((fun a : Artwork => { a with status := .ACTIVE }) x) = true := by
    intro x hx
    simpa using hx
  have hbPres : ∀ x, (fun b : Bid => decide (b.id = p0.bid_id)) x = true →
      (fun b : Bid => decide (b.id = p0.bid_id))
        ((fun b : Bid => { b with is_winning := false }) x) = true := by
    intro x hx
    simpa using hx
  refine ⟨failPayment err p0, by rw [hrun], rfl, rfl, ?_, ?_⟩
  · refine ⟨{ aw0 with status := ArtworkStatus.ACTIVE }, ?_, rfl, rfl⟩
    have hda : (handle_payment_failed db intent err).1.artworks
        = updateFirstBy (fun a => decide (a.id = b0.artwork_id))
            (fun a => { a with status := .ACTIVE }) db.artworks := by
      rw [hrun]
    rw [hda, find?_updateFirstBy _ _ _ haPres, ha]
    rfl
  · refine ⟨{ b0 with is_winning := false }, ?_, rfl⟩
    have hdb : (handle_payment_failed db intent err).1.bids
        = updateFirstBy (fun b => decide (b.id = p0.bid_id))
            (fun b => { b with is_winning := false }) db.bids := by
      rw [hrun]
    rw [hdb, find?_updateFirstBy _ _ _ hbPres, hb]
    rfl

theorem handle_payment_failed_effects_witness :
    dbPay.payments.find? (fun p => decide (p.stripe_payment_intent_id = "pi_1"))
      = some payEx ∧
    (∃ p1, (handle_payment_failed dbPay "pi_1" none).2 = .ok p1 ∧
      p1.status = .FAILED ∧ p1.failure_reason = some "Unknown error") ∧
    (∃ aw', (handle_payment_failed dbPay "pi_1" none).1.artworks.find?
        (fun a => decide (a.id = bidWin.artwork_id)) = some aw' ∧
      aw'.status = .ACTIVE ∧
      aw'.current_highest_bid
        = ({ awExp with status := ArtworkStatus.PENDING_PAYMENT }).current_highest_bid) := by
  obtain ⟨p1, hok, hst, hreason, haw, -⟩ :=
    handle_payment_failed_effects dbPay "pi_1" none payEx bidWin
      { awExp with status := .PENDING_PAYMENT } (by decide) (by decide) (by decide)
  exact ⟨by decide, ⟨p1, hok, hst, hreason⟩, haw⟩

/-- C9: the failure callback is unguarded — even when the Payment is already
SUCCEEDED and its Artwork SOLD with a winning Bid, it still flips the Payment
to FAILED, the Artwork back to ACTIVE, and the Bid's `is_winning` to false:
a late failure callback un-sells a sold artwork. -/
theorem handle_payment_failed_unguarded (db : DB) (intent : String) (err : Option String)
    (p0 : Payment) (b0 : Bid) (aw0 : Artwork)
    (hp : db.payments.find? (fun p => decide (p.stripe_payment_intent_id = intent)) = some p0)
    (hb : db.bids.find? (fun b => decide (b.id = p0.bid_id)) = some b0)
    (ha : db.artworks.find? (fun a => decide (a.id = b0.artwork_id)) = some aw0)
    (hps : p0.status = .SUCCEEDED) (has : aw0.status = .SOLD)
    (hbw : b0.is_winning = true) :
    (handle_payment_failed db intent err).2 = .ok (failPayment err p0) ∧
    (failPayment err p0).status = .FAILED ∧
    (∃ aw', (handle_payment_failed db intent err).1.artworks.find?
        (fun a => decide (a.id = b0.artwork_id)) = some aw' ∧
      aw'.status = .ACTIVE ∧ aw'.status ≠ .SOLD) ∧
    (∃ b', (handle_payment_failed db intent err).1.bids.find?
        (fun x => decide (x.id = p0.bid_id)) = some b' ∧
      b'.is_winning = false) := by
  have hrun := handle_payment_failed_run db intent err p0 b0 aw0 hp hb ha
  have haPres : ∀ x, (fun a : Artwork => decide (a.id = b0.artwork_id)) x = true →
      (fun a : Artwork => decide (a.id = b0.artwork_id))
        ((fun a : Artwork => { a with status := .ACTIVE }) x) = true := by
    intro x hx
    simpa using hx
  have hbPres : ∀ x, (fun b : Bid => decide (b.id = p0.bid_id)) x = true →
      (fun b : Bid => decide (b.id = p0.bid_id))
        ((fun b : Bid => { b with is_winning := false }) x) = true := by
    intro x hx
    simpa using hx
  refine ⟨by rw [hrun], rfl, ?_, ?_⟩
  · refine ⟨{ aw0 with status := ArtworkStatus.ACTIVE }, ?_, rfl, fun hc => by cases hc⟩
    have hda : (handle_payment_failed db intent err).1.artworks
        = updateFirstBy (fun a => decide (a.id = b0.artwork_id))
            (fun a => { a with status := .ACTIVE }) db.artworks := by
      rw [hrun]
    rw [hda, find?_updateFirstBy _ _ _ haPres, ha]
    rfl
  · refine ⟨{ b0 with is_winning := false }, ?_, rfl⟩
    have hdb : (handle_payment_failed db intent err).1.bids
        = updateFirstBy (fun b => decide (b.id = p0.bid_id))
            (fun b => { b with is_winning := false }) db.bids := by
      rw [hrun]
    rw [hdb, find?_updateFirstBy _ _ _ hbPres, hb]
    rfl

theorem handle_payment_failed_unguarded_witness :
    (Payment.status { payEx with status := .SUCCEEDED, stripe_charge_id := some "ch_1" })
      = .SUCCEEDED ∧
    ({ awExp with status := ArtworkStatus.SOLD }).status = .SOLD ∧
    bidWin.is_winning = true ∧
    (handle_payment_failed dbSold "pi_1" (some "card_declined")).2
      = .ok (failPayment (some "card_declined")
          { payEx with status := .SUCCEEDED, stripe_charge_id := some "ch_1" }) ∧
    (handle_payment_failed dbSold "pi_1" (some "card_declined")).1.artworks.find?
      (fun a => decide (a.id = 2)) = some { awExp with status := .ACTIVE } := by
  have h := handle_payment_failed_unguarded dbSold "pi_1" (some "card_declined")
    { payEx with status := .SUCCEEDED, stripe_charge_id := some "ch_1" } bidWin
    { awExp with status := .SOLD } (by decide) (by decide) (by decide)
    (by decide) (by decide) (by decide)
  exact ⟨by decide, by decide, by decide, h.1, by decide⟩

/-! ### Claim about the bid listing endpoint -/

/-- No `Bid` row can be serialized through `BidResponse`: the schema's
`bid_time` field reads an attribute the model does not define. -/
theorem bidToResponse?_eq_none (b : Bid) : bidToResponse? b = none := rfl

/-- C8: the bid listing endpoint cannot return any nonempty listing —
`BidResponse` requires the attribute `bid_time`, which `models/bid.py`'s
`Bid` no longer defines after the rename to `created_at`, so response
validation fails on the artwork of `dbSweep` holding one bid (and on every
bid row), while an artwork with no bids still yields the empty list. -/
theorem get_artwork_bids_bid_time_mismatch :
    bidAttr bidWin "bid_time" = none ∧
    bidToResponse? bidWin = none ∧
    get_artwork_bids dbSweep 2 = none ∧
    get_artwork_bids dbSweep 99 = some [] := by decide

end GuessTheWorth
